import Mathlib

/-
TorGuard verification: a shallow embedding of the outage-detection state
machine and network kill-switch of tor_guard.py, together with theorems
checking the specified behaviour of liveness probing, grace and retry
debouncing, the alert-and-consent protocol, interface selection and the
confirmation gate.

External effects (socket connects, the pgrep process query, subprocess
return codes, operator input lines, the stop flag, the tkinter display)
are supplied by an explicit environment record; time is measured as the
cumulative number of seconds slept, since sleeps are the only places the
monitor loop passes time.
-/

/-
Python str.strip with no arguments removes leading and trailing
whitespace.  The code under test calls it on every operator response
before comparing with the literal YES.
-/
def isPySpace (c : Char) : Bool :=
  c = ' ' || c = '\t' || c = '\n' || c = '\r' || c = '\x0b' || c = '\x0c'

def pyStrip (s : String) : String :=
  String.mk (((s.toList.dropWhile isPySpace).reverse.dropWhile isPySpace).reverse)

/-
Configuration dictionary of tor_guard.py (parse_cfg defaults, lines
159-170).  Numeric fields are Int because the Python values are plain
ints that validate_config checks for range.
-/
structure Config where
  socksPorts : List Int
  checkHosts : List String
  graceSeconds : Int
  retries : Int
  checkInterval : Int
  requireConfirm : Bool
  useTk : Bool
  redImagePath : String
  interfaceWhitelist : List String
deriving Repr, DecidableEq

/- OS commands the Linux kill-switch can issue. -/
inductive Cmd where
  | nmcliNetworkingOff
  | ipLinkSetDown (iface : String)
deriving Repr, DecidableEq

/-
Observable events of one monitor run, in program order: a liveness
probe with its result, a sleep of the given number of seconds, the
invocation of the warning presenter, an input() consent prompt with the
raw line the operator typed, a write to the shared health state, and an
issued OS command.
-/
inductive Ev where
  | probe (alive : Bool)
  | sleep (secs : Int)
  | warn
  | prompt (raw : String)
  | stateSet (b : Bool)
  | cmd (c : Cmd)
deriving Repr, DecidableEq

/- validate_port, tor_guard.py lines 115-117. -/
def validate_port (port : Int) : Bool :=
  decide (1 ≤ port) && decide (port ≤ 65535)

/-
validate_config, tor_guard.py lines 120-154.  The RED_IMAGE_PATH check
only emits a warning and never changes the result, so it does not appear
in the returned Bool.
-/
def validate_config (cfg : Config) : Bool :=
  cfg.socksPorts.all validate_port
    && !cfg.checkHosts.isEmpty
    && decide (0 ≤ cfg.graceSeconds)
    && decide (1 ≤ cfg.retries)
    && decide (1 ≤ cfg.checkInterval)

/-
have_tor_process, tor_guard.py lines 249-269: pgrep -x tor.  Every
failure of the query tool (no match, timeout, missing binary) is caught
and reported as False; only a found process yields True.
-/
inductive PgrepOutcome where
  | found
  | notFound
  | timeout
  | toolMissing
deriving Repr, DecidableEq

def have_tor_process (o : PgrepOutcome) : Bool :=
  match o with
  | PgrepOutcome.found => true
  | PgrepOutcome.notFound => false
  | PgrepOutcome.timeout => false
  | PgrepOutcome.toolMissing => false

/-
socks_alive, tor_guard.py lines 232-246: nested loops over CHECK_HOSTS
(outer) and SOCKS_PORTS (inner), returning True on the first successful
connect and False when every combination fails.  Connection errors are
caught and treated as a failed attempt.  probePairs walks the
host-by-port list in loop order, counting connect attempts and stopping
at the first success.
-/
def probePairs (connect : String → Int → Bool) : List (String × Int) → Nat × Bool
  | [] => (0, false)
  | (h, p) :: rest =>
    if connect h p then (1, true)
    else ((probePairs connect rest).1 + 1, (probePairs connect rest).2)

def hostPortPairs (cfg : Config) : List (String × Int) :=
  (cfg.checkHosts.map (fun h => cfg.socksPorts.map (fun p => (h, p)))).flatten

def socks_alive (cfg : Config) (connect : String → Int → Bool) : Bool :=
  (probePairs connect (hostPortPairs cfg)).2

def socksAttempts (cfg : Config) (connect : String → Int → Bool) : Nat :=
  (probePairs connect (hostPortPairs cfg)).1

/-
choose_iface, tor_guard.py lines 370-388.  wl is INTERFACE_WHITELIST,
up is the enumerated list of active non-loopback interfaces.  A
non-empty whitelist selects the first enumerated interface contained in
it (None when no match); an empty whitelist selects the first
enumerated interface.
-/
def choose_iface (wl up : List String) : Option String :=
  if !wl.isEmpty then
    up.find? (fun n => wl.contains n)
  else
    up.head?

/- Python exceptions relevant to the warning presenter. -/
inductive PyExc where
  | importError
  | tclError
  | nameError
  | eofError
deriving Repr, DecidableEq

/- Image viewers tried by show_red_image_if_possible, in order. -/
inductive Viewer where
  | display
  | feh
deriving Repr, DecidableEq

/-
Environment: every external observation the program makes, as explicit
data.  connect and pgrep are indexed by the probe call number so that
successive probes may differ; resp is indexed by the input() call
number; stopAt is the cumulative-sleep-seconds instant at which the stop
flag becomes set (none when no stop is ever requested).
-/
structure Env where
  connect : Nat → String → Int → Bool
  pgrep : Nat → PgrepOutcome
  stopAt : Option Int
  resp : Nat → String
  isRoot : Bool
  hasNmcli : Bool
  upIfaces : List String
  nmcliRc : Option Int
  ipRc : String → Option Int
  imgExists : Bool
  viewerFound : Viewer → Bool
  viewerLaunchOk : Viewer → Bool
  tkImportOk : Bool
  tkDisplayOk : Bool
  stdinOpen : Bool

/- The stop flag as observed at cumulative sleep time t. -/
def stopSet (env : Env) (t : Int) : Bool :=
  match env.stopAt with
  | none => false
  | some s => decide (s ≤ t)

/-
One combined liveness probe: the expression
socks_alive(self.cfg) or have_tor_process() evaluated as the k-th probe
call of the run (Monitor.run lines 680 and 698).
-/
def probeOnce (cfg : Config) (env : Env) (k : Nat) : Bool :=
  socks_alive cfg (env.connect k) || have_tor_process (env.pgrep k)

/-
bring_down_network_linux, tor_guard.py lines 407-452, as run on Linux
(bring_down_network lines 391-404 dispatches here when the platform is
Linux).  Returns the list of observable events (consent prompts and OS
commands, in order), the number of input() lines consumed, and the Bool
the function returns.  nmcliRc and ipRc are the return codes of the
subprocess calls; none models the caught TimeoutExpired or
FileNotFoundError, after which the function returns False.
-/
def bring_down_network_linux (cfg : Config) (env : Env) (pIdx : Nat) : List Ev × Nat × Bool :=
  if env.hasNmcli then
    if cfg.requireConfirm then
      if pyStrip (env.resp pIdx) = "YES" then
        match env.nmcliRc with
        | none => ([Ev.prompt (env.resp pIdx), Ev.cmd Cmd.nmcliNetworkingOff], 1, false)
        | some rc => ([Ev.prompt (env.resp pIdx), Ev.cmd Cmd.nmcliNetworkingOff], 1, decide (rc = 0))
      else ([Ev.prompt (env.resp pIdx)], 1, false)
    else
      match env.nmcliRc with
      | none => ([Ev.cmd Cmd.nmcliNetworkingOff], 0, false)
      | some rc => ([Ev.cmd Cmd.nmcliNetworkingOff], 0, decide (rc = 0))
  else
    match choose_iface cfg.interfaceWhitelist env.upIfaces with
    | none => ([], 0, false)
    | some iface =>
      if cfg.requireConfirm then
        if pyStrip (env.resp pIdx) = "YES" then
          match env.ipRc iface with
          | none => ([Ev.prompt (env.resp pIdx), Ev.cmd (Cmd.ipLinkSetDown iface)], 1, false)
          | some rc => ([Ev.prompt (env.resp pIdx), Ev.cmd (Cmd.ipLinkSetDown iface)], 1, decide (rc = 0))
        else ([Ev.prompt (env.resp pIdx)], 1, false)
      else
        match env.ipRc iface with
        | none => ([Ev.cmd (Cmd.ipLinkSetDown iface)], 0, false)
        | some rc => ([Ev.cmd (Cmd.ipLinkSetDown iface)], 0, decide (rc = 0))

/-
show_red_image_if_possible, tor_guard.py lines 559-583: nothing happens
unless RED_IMAGE_PATH is set and the file exists; then the viewers
display and feh are tried in order, a found viewer whose launch fails
is skipped, and the function reports whether some viewer launched.
-/
def tryViewers (env : Env) : List Viewer → Bool
  | [] => false
  | v :: rest =>
    if env.viewerFound v then
      if env.viewerLaunchOk v then true else tryViewers env rest
    else tryViewers env rest

def show_red_image_if_possible (cfg : Config) (env : Env) : Bool :=
  if cfg.redImagePath = "" then false
  else if !env.imgExists then false
  else tryViewers env [Viewer.display, Viewer.feh]

/-
tk_fullscreen_warning, tor_guard.py lines 586-619.  The body imports
tkinter as tk and runs a full-screen dialog; the handler clause is
written except (ImportError, tk.TclError).  When the import itself
raises ImportError, Python evaluates that handler tuple in order to
match the exception, and the evaluation dereferences tk, a name that
was never bound, so a NameError escapes the function.  When the import
succeeds and the display fails, the raised TclError matches the handler
and the function returns False; a dismissed dialog returns True.
-/
def tk_fullscreen_warning (env : Env) : Except PyExc Bool :=
  if !env.tkImportOk then Except.error PyExc.nameError
  else if env.tkDisplayOk then Except.ok true
  else Except.ok false

/-
ascii_red_box, tor_guard.py lines 622-629: prints the banner and blocks
on input(); that call raises EOFError on a closed stdin and nothing in
the function catches it.
-/
def ascii_red_box (env : Env) : Except PyExc Unit :=
  if env.stdinOpen then Except.ok () else Except.error PyExc.eofError

/-
show_fullscreen_warning, tor_guard.py lines 632-644: image overlay
first, then the tkinter dialog when USE_TK is set, then the ASCII
banner; exceptions escaping a step propagate to the caller.
-/
def show_fullscreen_warning (cfg : Config) (env : Env) : Except PyExc Unit :=
  if show_red_image_if_possible cfg env then Except.ok ()
  else if cfg.useTk then
    match tk_fullscreen_warning env with
    | Except.error e => Except.error e
    | Except.ok true => Except.ok ()
    | Except.ok false => ascii_red_box env
  else ascii_red_box env

/- Outcome of the grace-and-retry for loop, Monitor.run lines 693-701. -/
inductive RetryRes where
  | stopped (t : Int) (k : Nat)
  | recovered (t : Int) (k : Nat)
  | exhausted (t : Int) (k : Nat)
deriving Repr, DecidableEq

/-
The for attempt in range(RETRIES) loop of Monitor.run lines 693-701:
each iteration sleeps GRACE_SECONDS, then returns when the stop flag is
set, then re-probes and breaks out on success.  n is the number of
iterations remaining, t the cumulative sleep seconds, k the next probe
call number.
-/
def retryLoop (cfg : Config) (env : Env) : Nat → Int → Nat → List Ev × RetryRes
  | 0, t, k => ([], RetryRes.exhausted t k)
  | Nat.succ n, t, k =>
    if stopSet env (t + cfg.graceSeconds) then
      ([Ev.sleep cfg.graceSeconds], RetryRes.stopped (t + cfg.graceSeconds) k)
    else if probeOnce cfg env k then
      ([Ev.sleep cfg.graceSeconds, Ev.probe true], RetryRes.recovered (t + cfg.graceSeconds) (k + 1))
    else
      (Ev.sleep cfg.graceSeconds :: Ev.probe false ::
        (retryLoop cfg env n (t + cfg.graceSeconds) (k + 1)).1,
       (retryLoop cfg env n (t + cfg.graceSeconds) (k + 1)).2)

/- Result of one pass through the body of the while loop of Monitor.run. -/
inductive StepRes where
  | go (t : Int) (k pIdx : Nat) (st : Option Bool)
  | stopped
  | exited
  | crashed (e : PyExc)
deriving Repr, DecidableEq

/-
Monitor.run lines 712-732, the part after show_fullscreen_warning
returned: check the stop flag, prompt for consent, and on a stripped
YES from a root operator call bring_down_network; a successful disable
reaches sys.exit(0), a failed one falls through to the loop top with no
state write and no sleep, while any other response logs the abort, sets
the shared state to False and sleeps CHECK_INTERVAL.
-/
def afterWarn (cfg : Config) (env : Env) (t2 : Int) (k2 pIdx : Nat) (st : Option Bool) :
    List Ev × StepRes :=
  if stopSet env t2 then ([], StepRes.stopped)
  else if pyStrip (env.resp pIdx) = "YES" then
    if env.isRoot then
      (Ev.prompt (env.resp pIdx) :: (bring_down_network_linux cfg env (pIdx + 1)).1,
       if (bring_down_network_linux cfg env (pIdx + 1)).2.2 then StepRes.exited
       else StepRes.go t2 k2 (pIdx + 1 + (bring_down_network_linux cfg env (pIdx + 1)).2.1) st)
    else ([Ev.prompt (env.resp pIdx)], StepRes.go t2 k2 (pIdx + 1) st)
  else
    ([Ev.prompt (env.resp pIdx), Ev.stateSet false, Ev.sleep cfg.checkInterval],
     StepRes.go (t2 + cfg.checkInterval) k2 (pIdx + 1) (some false))

/-
One pass through the body of the while loop of Monitor.run lines
679-732, on Linux: probe; when alive, publish True and sleep
CHECK_INTERVAL; otherwise run the grace-and-retry loop, publish True on
a recovery, and on exhaustion invoke the warning presenter (whose
escaping exception kills the thread) followed by the consent phase.
-/
def loopIter (cfg : Config) (env : Env) (t : Int) (k pIdx : Nat) (st : Option Bool) :
    List Ev × StepRes :=
  if probeOnce cfg env k then
    ([Ev.probe true, Ev.stateSet true, Ev.sleep cfg.checkInterval],
     StepRes.go (t + cfg.checkInterval) (k + 1) pIdx (some true))
  else
    match retryLoop cfg env cfg.retries.toNat t (k + 1) with
    | (tr, RetryRes.stopped _ _) => (Ev.probe false :: tr, StepRes.stopped)
    | (tr, RetryRes.recovered t2 k2) =>
      (Ev.probe false :: (tr ++ [Ev.stateSet true]), StepRes.go t2 k2 pIdx (some true))
    | (tr, RetryRes.exhausted t2 k2) =>
      match show_fullscreen_warning cfg env with
      | Except.error e => (Ev.probe false :: (tr ++ [Ev.warn]), StepRes.crashed e)
      | Except.ok _ =>
        (Ev.probe false :: (tr ++ Ev.warn :: (afterWarn cfg env t2 k2 pIdx st).1),
         (afterWarn cfg env t2 k2 pIdx st).2)

/- Terminal status of a bounded run of the while loop of Monitor.run. -/
inductive RunEnd where
  | stopped
  | exited
  | crashed (e : PyExc)
  | fuelOut (t : Int) (k pIdx : Nat) (st : Option Bool)
deriving Repr, DecidableEq

/-
The while not self._stop.is_set() loop of Monitor.run, lines 679-732,
bounded by fuel iterations: the loop-top stop check followed by the
body, iterated while the body asks to continue.
-/
def monRun (cfg : Config) (env : Env) : Nat → Int → Nat → Nat → Option Bool → List Ev × RunEnd
  | 0, t, k, pIdx, st => ([], RunEnd.fuelOut t k pIdx st)
  | Nat.succ fuel, t, k, pIdx, st =>
    if stopSet env t then ([], RunEnd.stopped)
    else
      match loopIter cfg env t k pIdx st with
      | (tr, StepRes.go t2 k2 p2 st2) =>
        (tr ++ (monRun cfg env fuel t2 k2 p2 st2).1, (monRun cfg env fuel t2 k2 p2 st2).2)
      | (tr, StepRes.stopped) => (tr, RunEnd.stopped)
      | (tr, StepRes.exited) => (tr, RunEnd.exited)
      | (tr, StepRes.crashed e) => (tr, RunEnd.crashed e)

/-
Concrete scenarios used to instantiate the theorems: a minimal valid
configuration on the nmcli path, an environment in which the proxy is
down throughout, no stop is requested, every consent prompt receives an
empty line, the operator is root and every OS command succeeds.
-/
def baseCfg : Config :=
  { socksPorts := [9050]
    checkHosts := ["127.0.0.1"]
    graceSeconds := 1
    retries := 1
    checkInterval := 3
    requireConfirm := true
    useTk := false
    redImagePath := ""
    interfaceWhitelist := [] }

def baseEnv : Env :=
  { connect := fun _ _ _ => false
    pgrep := fun _ => PgrepOutcome.notFound
    stopAt := none
    resp := fun _ => ""
    isRoot := true
    hasNmcli := true
    upIfaces := ["eth0"]
    nmcliRc := some 0
    ipRc := fun _ => some 0
    imgExists := false
    viewerFound := fun _ => false
    viewerLaunchOk := fun _ => false
    tkImportOk := true
    tkDisplayOk := true
    stdinOpen := true }

/- Every prompt answered with YES padded by surrounding whitespace. -/
def envYesPad : Env := { baseEnv with resp := fun _ => " YES" }

/- No NetworkManager and no active interface: the kill-switch has no target. -/
def envNoTarget : Env :=
  { baseEnv with hasNmcli := false, upIfaces := [], resp := fun _ => "YES" }

/- Monitor-level consent disabled in the configuration. -/
def cfgNoConfirm : Config := { baseCfg with requireConfirm := false }

/- Every prompt answered with the exact token YES. -/
def envYes : Env := { baseEnv with resp := fun _ => "YES" }

/- The default-config timing: an 8 second grace delay, two retries. -/
def cfgC6 : Config := { baseCfg with graceSeconds := 8, retries := 2 }

/- A stop request arriving one second into the first grace delay. -/
def envStop1 : Env := { baseEnv with stopAt := some 1 }

/- Consent given everywhere but the nmcli disable command exits nonzero. -/
def envNmFail : Env := { baseEnv with resp := fun _ => "YES", nmcliRc := some 1 }

/- Warning presenter forced onto the tkinter path. -/
def cfgTk : Config := { baseCfg with useTk := true }

/- tkinter is not installed: import tkinter raises ImportError. -/
def envNoTkImport : Env := { baseEnv with tkImportOk := false }

/- Both consents given, each as YES with stray whitespace, never exact. -/
def envYesPadBoth : Env :=
  { baseEnv with resp := fun n => if n = 0 then " YES" else "YES " }

/- Two grace retries instead of one. -/
def cfgR2 : Config := { baseCfg with retries := 2 }

/- A configuration whose SOCKS_PORTS list is empty. -/
def cfgNoPorts : Config := { baseCfg with socksPorts := [] }

/- With no stop request the stop flag is never observed set. -/
lemma stopSet_none {env : Env} (h : env.stopAt = none) (t : Int) : stopSet env t = false := by
  simp [stopSet, h]

/- The first component of probePairs characterised: success somewhere. -/
lemma probePairs_snd_iff (connect : String → Int → Bool) (l : List (String × Int)) :
    (probePairs connect l).2 = true ↔ ∃ pr ∈ l, connect pr.1 pr.2 = true := by
  induction l with
  | nil => simp [probePairs]
  | cons hp rest ih =>
    obtain ⟨h, p⟩ := hp
    by_cases hc : connect h p
    · simp [probePairs, hc]
    · simp [probePairs, hc, ih]

/- Membership in the host-by-port product list. -/
lemma mem_hostPortPairs (cfg : Config) (h : String) (p : Int) :
    (h, p) ∈ hostPortPairs cfg ↔ h ∈ cfg.checkHosts ∧ p ∈ cfg.socksPorts := by
  simp [hostPortPairs, List.mem_flatten, List.mem_map]

/- socks_alive succeeds exactly when some configured host and port accept. -/
lemma socks_alive_iff (cfg : Config) (connect : String → Int → Bool) :
    socks_alive cfg connect = true ↔
      ∃ h ∈ cfg.checkHosts, ∃ p ∈ cfg.socksPorts, connect h p = true := by
  unfold socks_alive
  rw [probePairs_snd_iff]
  constructor
  · rintro ⟨⟨h, p⟩, hmem, hc⟩
    obtain ⟨hh, hp⟩ := (mem_hostPortPairs cfg h p).mp hmem
    exact ⟨h, hh, p, hp, hc⟩
  · rintro ⟨h, hh, p, hp, hc⟩
    exact ⟨(h, p), (mem_hostPortPairs cfg h p).mpr ⟨hh, hp⟩, hc⟩

/- have_tor_process reports exactly a found process. -/
lemma have_tor_process_iff (o : PgrepOutcome) :
    have_tor_process o = true ↔ o = PgrepOutcome.found := by
  cases o <;> simp [have_tor_process]

/- The kill-switch event list never contains a warning event. -/
lemma warn_not_mem_bdn (cfg : Config) (env : Env) (p : Nat) :
    Ev.warn ∉ (bring_down_network_linux cfg env p).1 := by
  unfold bring_down_network_linux
  repeat' split
  all_goals simp

/- The kill-switch event list never contains a health-state write. -/
lemma stateSet_not_mem_bdn (cfg : Config) (env : Env) (p : Nat) (b : Bool) :
    Ev.stateSet b ∉ (bring_down_network_linux cfg env p).1 := by
  unfold bring_down_network_linux
  repeat' split
  all_goals simp

/-
With the confirmation gate on, a command can only appear in the
kill-switch event list when the line read at its own prompt strips to
YES.
-/
lemma cmd_mem_bdn_confirm (cfg : Config) (env : Env) (p : Nat) (c : Cmd)
    (hconf : cfg.requireConfirm = true)
    (hm : Ev.cmd c ∈ (bring_down_network_linux cfg env p).1) :
    pyStrip (env.resp p) = "YES" := by
  unfold bring_down_network_linux at hm
  rw [hconf] at hm
  by_cases hy : pyStrip (env.resp p) = "YES"
  · exact hy
  · exfalso
    revert hm
    repeat' split
    all_goals simp_all

/- With the gate off, the kill-switch consumes no prompt at all. -/
lemma prompt_not_mem_bdn_noconfirm (cfg : Config) (env : Env) (p : Nat) (r : String)
    (hconf : cfg.requireConfirm = false) :
    Ev.prompt r ∉ (bring_down_network_linux cfg env p).1 := by
  unfold bring_down_network_linux
  rw [hconf]
  repeat' split
  all_goals simp_all

/- Elements of the repeated grace block are sleeps or failed probes. -/
lemma mem_flatten_replicate_block {x : Ev} {n : Nat} {g : Int}
    (hx : x ∈ List.flatten (List.replicate n [Ev.sleep g, Ev.probe false])) :
    x = Ev.sleep g ∨ x = Ev.probe false := by
  rcases List.mem_flatten.mp hx with ⟨l, hl, hxl⟩
  rcases List.eq_of_mem_replicate hl with rfl
  simpa using hxl

/-
When every re-probe fails and no stop is requested, the grace-and-retry
loop sleeps n times for graceSeconds, probes n times, and exhausts.
-/
lemma retryLoop_allFail (cfg : Config) (env : Env) (hstop : env.stopAt = none) :
    ∀ (n : Nat) (t : Int) (k : Nat),
      (∀ i, i < n → probeOnce cfg env (k + i) = false) →
      retryLoop cfg env n t k =
        (List.flatten (List.replicate n [Ev.sleep cfg.graceSeconds, Ev.probe false]),
         RetryRes.exhausted (t + n * cfg.graceSeconds) (k + n)) := by
  intro n
  induction n with
  | zero =>
    intro t k _
    simp [retryLoop]
  | succ n ih =>
    intro t k hf
    have h0 : probeOnce cfg env k = false := by simpa using hf 0 (Nat.succ_pos n)
    have hs : stopSet env (t + cfg.graceSeconds) = false := stopSet_none hstop _
    have ihres := ih (t + cfg.graceSeconds) (k + 1) (fun i hi => by
      have := hf (i + 1) (Nat.succ_lt_succ hi)
      simpa [Nat.add_comm, Nat.add_left_comm, Nat.add_assoc] using this)
    simp only [retryLoop, hs, h0, Bool.false_eq_true, if_false, ihres]
    refine Prod.ext ?_ ?_
    · simp [List.replicate_succ]
    · simp only [RetryRes.exhausted.injEq]
      constructor <;> first | trivial | omega | (push_cast; ring)

/-
When the j-th re-probe is the first to succeed (j counted from zero,
j below the retry budget) and no stop is requested, the loop runs j
failed grace blocks, one final successful one, and recovers.
-/
lemma retryLoop_recover (cfg : Config) (env : Env) (hstop : env.stopAt = none) :
    ∀ (j n : Nat) (t : Int) (k : Nat), j < n →
      probeOnce cfg env (k + j) = true →
      (∀ i, i < j → probeOnce cfg env (k + i) = false) →
      retryLoop cfg env n t k =
        (List.flatten (List.replicate j [Ev.sleep cfg.graceSeconds, Ev.probe false])
           ++ [Ev.sleep cfg.graceSeconds, Ev.probe true],
         RetryRes.recovered (t + (j + 1) * cfg.graceSeconds) (k + j + 1)) := by
  intro j
  induction j with
  | zero =>
    intro n t k hn hp _
    obtain ⟨m, rfl⟩ : ∃ m, n = m + 1 := ⟨n - 1, by omega⟩
    have hs : stopSet env (t + cfg.graceSeconds) = false := stopSet_none hstop _
    have hp0 : probeOnce cfg env k = true := by simpa using hp
    have hstep : retryLoop cfg env (m + 1) t k =
        ([Ev.sleep cfg.graceSeconds, Ev.probe true],
         RetryRes.recovered (t + cfg.graceSeconds) (k + 1)) := by
      simp [retryLoop, hs, hp0]
    rw [hstep]
    refine Prod.ext ?_ ?_
    · simp
    · simp only [RetryRes.recovered.injEq]
      constructor <;> first | trivial | omega | (push_cast; ring)
  | succ j ih =>
    intro n t k hn hp hf
    obtain ⟨m, rfl⟩ : ∃ m, n = m + 1 := ⟨n - 1, by omega⟩
    have hs : stopSet env (t + cfg.graceSeconds) = false := stopSet_none hstop _
    have h0 : probeOnce cfg env k = false := by simpa using hf 0 (Nat.succ_pos j)
    have hp1 : probeOnce cfg env (k + 1 + j) = true := by
      have : k + 1 + j = k + (j + 1) := by omega
      rw [this]; exact hp
    have hf1 : ∀ i, i < j → probeOnce cfg env (k + 1 + i) = false := fun i hi => by
      have := hf (i + 1) (Nat.succ_lt_succ hi)
      have heq : k + 1 + i = k + (i + 1) := by omega
      rw [heq]; exact this
    have ihres := ih m (t + cfg.graceSeconds) (k + 1) (by omega) hp1 hf1
    simp only [retryLoop, hs, h0, Bool.false_eq_true, if_false, ihres]
    refine Prod.ext ?_ ?_
    · simp [List.replicate_succ]
    · simp only [RetryRes.recovered.injEq]
      constructor <;> first | trivial | omega | (push_cast; ring)

/-
A confirmed outage, observed from the loop body: initial probe down,
all re-probes down, no stop request, and a warning presenter that
returns normally.  The body sleeps and re-probes retries times, shows
the warning once, and continues into the consent phase.
-/
lemma loopIter_confirmedOutage (cfg : Config) (env : Env) (t : Int) (k pIdx : Nat)
    (st : Option Bool) (hstop : env.stopAt = none)
    (h0 : probeOnce cfg env k = false)
    (hf : ∀ i, i < cfg.retries.toNat → probeOnce cfg env (k + 1 + i) = false)
    (hw : show_fullscreen_warning cfg env = Except.ok ()) :
    loopIter cfg env t k pIdx st =
      (Ev.probe false ::
        (List.flatten (List.replicate cfg.retries.toNat
            [Ev.sleep cfg.graceSeconds, Ev.probe false])
          ++ Ev.warn ::
            (afterWarn cfg env (t + cfg.retries.toNat * cfg.graceSeconds)
              (k + 1 + cfg.retries.toNat) pIdx st).1),
       (afterWarn cfg env (t + cfg.retries.toNat * cfg.graceSeconds)
          (k + 1 + cfg.retries.toNat) pIdx st).2) := by
  have hr := retryLoop_allFail cfg env hstop cfg.retries.toNat t (k + 1) hf
  simp only [loopIter, h0, Bool.false_eq_true, if_false, hr, hw]

/-
With no stop request pending, the consent phase always begins with the
monitor-level prompt, and nothing after that prompt is a warning event.
-/
lemma afterWarn_shape (cfg : Config) (env : Env) (t2 : Int) (k2 pIdx : Nat)
    (st : Option Bool) (hs : stopSet env t2 = false) :
    ∃ post, (afterWarn cfg env t2 k2 pIdx st).1 = Ev.prompt (env.resp pIdx) :: post
      ∧ Ev.warn ∉ post := by
  unfold afterWarn
  rw [hs]
  by_cases hy : pyStrip (env.resp pIdx) = "YES"
  · by_cases hr : env.isRoot
    · refine ⟨(bring_down_network_linux cfg env (pIdx + 1)).1, ?_, ?_⟩
      · simp [hy, hr]
      · exact warn_not_mem_bdn cfg env (pIdx + 1)
    · refine ⟨[], ?_, ?_⟩
      · simp [hy, hr]
      · simp
  · refine ⟨[Ev.stateSet false, Ev.sleep cfg.checkInterval], ?_, ?_⟩
    · simp [hy]
    · simp

/-- Claim C3: for every configuration the monitor declares the proxy alive
exactly when the socket probe succeeds for some configured host and port
or the process probe finds the tor process, i.e. liveness is the logical
OR of the two signals, whatever combination of outcomes they take. -/
theorem c3_liveness_or (cfg : Config) (env : Env) (k : Nat) :
    (probeOnce cfg env k = true ↔
      ((∃ h ∈ cfg.checkHosts, ∃ p ∈ cfg.socksPorts, env.connect k h p = true)
        ∨ env.pgrep k = PgrepOutcome.found))
    ∧ ∀ s q : Bool, socks_alive cfg (env.connect k) = s →
        have_tor_process (env.pgrep k) = q → probeOnce cfg env k = (s || q) := by
  constructor
  · rw [probeOnce, Bool.or_eq_true, socks_alive_iff, have_tor_process_iff]
  · rintro s q rfl rfl
    rfl

/-- Witness for C3: with no reachable socket and no tor process, liveness is
the OR of two false signals. -/
theorem c3_witness : probeOnce baseCfg baseEnv 0 = (false || false) :=
  (c3_liveness_or baseCfg baseEnv 0).2 false false (by decide) (by decide)

/-- Claim C4: interface selection: with a non-empty whitelist the first
enumerated interface that lies in the whitelist is chosen, and none when no
enumerated interface is whitelisted; with an empty whitelist the first
enumerated interface is chosen, and none when the enumeration is empty. -/
theorem c4_interface_selection (wl up : List String) :
    (wl = [] → ((up = [] → choose_iface wl up = none)
      ∧ ∀ a rest, up = a :: rest → choose_iface wl up = some a))
    ∧ (wl ≠ [] →
        ((∀ n ∈ up, n ∉ wl) → choose_iface wl up = none)
        ∧ ∀ i, (choose_iface wl up = some i ↔
            ∃ pre post, up = pre ++ i :: post ∧ i ∈ wl ∧ ∀ x ∈ pre, x ∉ wl)) := by
  constructor
  · rintro rfl
    constructor
    · rintro rfl
      simp [choose_iface]
    · rintro a rest rfl
      simp [choose_iface]
  · intro hwl
    have hne : (!wl.isEmpty) = true := by
      cases wl with
      | nil => exact absurd rfl hwl
      | cons a l => rfl
    constructor
    · intro hno
      simp only [choose_iface, hne, if_true]
      rw [List.find?_eq_none]
      intro x hx hc
      exact hno x hx (List.elem_iff.mp hc)
    · intro i
      simp only [choose_iface, hne, if_true]
      rw [List.find?_eq_some]
      constructor
      · rintro ⟨hpb, as, bs, rfl, hall⟩
        refine ⟨as, bs, rfl, List.elem_iff.mp hpb, ?_⟩
        intro x hx hmem
        have h1 := hall x hx
        rw [Bool.not_eq_true'] at h1
        have h2 : List.elem x wl = false := h1
        have h3 := List.elem_eq_true_of_mem hmem
        simp [h3] at h2
        exact h2 hmem
      · rintro ⟨pre, post, rfl, hiw, hpre⟩
        refine ⟨List.elem_eq_true_of_mem hiw, pre, post, rfl, ?_⟩
        intro a ha
        rw [Bool.not_eq_true']
        have : a ∉ wl := hpre a ha
        have h2 : List.elem a wl = false := by
          cases hel : List.elem a wl with
          | false => rfl
          | true => exact absurd (List.elem_iff.mp hel) this
        exact h2

/-- Witness for C4: whitelist e1 against enumeration e0, e1, e2 selects e1. -/
theorem c4_witness : choose_iface ["e1"] ["e0", "e1", "e2"] = some "e1" :=
  (((c4_interface_selection ["e1"] ["e0", "e1", "e2"]).2 (by decide)).2 "e1").mpr
    ⟨["e0"], ["e2"], rfl, by decide, by decide⟩

/-- Claim C10: a configuration with an empty socksPorts list passes
validate_config (given the other validity constraints), and under it the
socket probe returns false with zero connection attempts, so liveness is
decided solely by the process probe. -/
theorem c10_empty_ports (cfg : Config) (env : Env) (k : Nat)
    (hports : cfg.socksPorts = [])
    (hhosts : cfg.checkHosts ≠ [])
    (hg : 0 ≤ cfg.graceSeconds) (hr : 1 ≤ cfg.retries) (hi : 1 ≤ cfg.checkInterval) :
    validate_config cfg = true
    ∧ socks_alive cfg (env.connect k) = false
    ∧ socksAttempts cfg (env.connect k) = 0
    ∧ probeOnce cfg env k = have_tor_process (env.pgrep k) := by
  have hpairs : hostPortPairs cfg = [] := by
    simp [hostPortPairs, hports]
  refine ⟨?_, ?_, ?_, ?_⟩
  · simp [validate_config, hports, hg, hr, hi, List.isEmpty_iff, hhosts]
  · simp [socks_alive, hpairs, probePairs]
  · simp [socksAttempts, hpairs, probePairs]
  · simp [probeOnce, socks_alive, hpairs, probePairs]

/-- Witness for C10: the concrete empty-ports configuration validates and
its liveness equals the process-probe signal alone. -/
theorem c10_witness :
    validate_config cfgNoPorts = true
    ∧ socks_alive cfgNoPorts (baseEnv.connect 0) = false
    ∧ socksAttempts cfgNoPorts (baseEnv.connect 0) = 0
    ∧ probeOnce cfgNoPorts baseEnv 0 = have_tor_process (baseEnv.pgrep 0) :=
  c10_empty_ports cfgNoPorts baseEnv 0 (by decide) (by decide) (by decide) (by decide)
    (by decide)

/- Every event in the grace-and-retry trace is a sleep or a probe. -/
lemma mem_retryLoop_trace (cfg : Config) (env : Env) :
    ∀ (n : Nat) (t : Int) (k : Nat) (x : Ev),
      x ∈ (retryLoop cfg env n t k).1 →
      (∃ g, x = Ev.sleep g) ∨ ∃ b, x = Ev.probe b := by
  intro n
  induction n with
  | zero =>
    intro t k x hx
    simp [retryLoop] at hx
  | succ n ih =>
    intro t k x hx
    cases hs : stopSet env (t + cfg.graceSeconds) with
    | true =>
      simp [retryLoop, hs] at hx
      exact Or.inl ⟨_, hx⟩
    | false =>
      cases hp : probeOnce cfg env k with
      | true =>
        simp [retryLoop, hs, hp] at hx
        rcases hx with rfl | rfl
        · exact Or.inl ⟨_, rfl⟩
        · exact Or.inr ⟨_, rfl⟩
      | false =>
        simp only [retryLoop, hs, hp, Bool.false_eq_true, if_false, List.mem_cons] at hx
        rcases hx with rfl | rfl | hx
        · exact Or.inl ⟨_, rfl⟩
        · exact Or.inr ⟨_, rfl⟩
        · exact ih _ _ x hx

/-
A command in the consent-phase trace implies, under the confirmation
gate, that both the monitor prompt and the kill-switch prompt were
answered by lines stripping to YES.
-/
lemma cmd_mem_afterWarn (cfg : Config) (env : Env) (t2 : Int) (k2 pIdx : Nat)
    (st : Option Bool) (c : Cmd) (hconf : cfg.requireConfirm = true)
    (hm : Ev.cmd c ∈ (afterWarn cfg env t2 k2 pIdx st).1) :
    pyStrip (env.resp pIdx) = "YES" ∧ pyStrip (env.resp (pIdx + 1)) = "YES" := by
  unfold afterWarn at hm
  cases hs : stopSet env t2 with
  | true => simp [hs] at hm
  | false =>
    by_cases hy : pyStrip (env.resp pIdx) = "YES"
    · cases hr : env.isRoot with
      | true =>
        simp only [hs, hy, hr, Bool.false_eq_true, if_false, if_true, List.mem_cons] at hm
        rcases hm with hm | hm
        · exact absurd hm (by simp)
        · exact ⟨hy, cmd_mem_bdn_confirm cfg env (pIdx + 1) c hconf hm⟩
      | false => simp [hs, hy, hr] at hm
    · simp [hs, hy] at hm

/-- Claim C2 (amended): with requireConfirm true the Linux kill-switch
issues no OS command and returns failure whenever the consent line does not
strip to YES; whenever it strips to YES and a target exists (NetworkManager
present, or an eligible interface chosen), a disabling command is issued.
The code strips whitespace before comparing, so exactness up to surrounding
whitespace, not literal equality with YES, is what the gate enforces. -/
theorem c2_confirm_gate_strip (cfg : Config) (env : Env) (pIdx : Nat)
    (hconf : cfg.requireConfirm = true) :
    (pyStrip (env.resp pIdx) ≠ "YES" →
      (bring_down_network_linux cfg env pIdx).2.2 = false
      ∧ ∀ c, Ev.cmd c ∉ (bring_down_network_linux cfg env pIdx).1)
    ∧ (pyStrip (env.resp pIdx) = "YES" →
        (env.hasNmcli = true ∨ choose_iface cfg.interfaceWhitelist env.upIfaces ≠ none) →
        ∃ c, Ev.cmd c ∈ (bring_down_network_linux cfg env pIdx).1) := by
  constructor
  · intro hy
    unfold bring_down_network_linux
    rw [hconf]
    repeat' split
    all_goals simp_all
  · intro hy htarget
    unfold bring_down_network_linux
    rw [hconf]
    repeat' split
    all_goals simp_all

/-- Witness for C2: the empty refusal line yields failure with no command. -/
theorem c2_witness :
    (bring_down_network_linux baseCfg baseEnv 0).2.2 = false
    ∧ Ev.cmd Cmd.nmcliNetworkingOff ∉ (bring_down_network_linux baseCfg baseEnv 0).1 :=
  ⟨((c2_confirm_gate_strip baseCfg baseEnv 0 (by decide)).1 (by decide)).1,
   ((c2_confirm_gate_strip baseCfg baseEnv 0 (by decide)).1 (by decide)).2
     Cmd.nmcliNetworkingOff⟩

/-- Counterexample for C2 as stated: the response YES preceded by a space is
not the exact token YES, yet the command is issued and success returned; and
the exact token YES issues no command when no target exists. -/
theorem c2_counterexample :
    ((envYesPad.resp 0 = " YES" ∧ envYesPad.resp 0 ≠ "YES")
      ∧ bring_down_network_linux baseCfg envYesPad 0
          = ([Ev.prompt " YES", Ev.cmd Cmd.nmcliNetworkingOff], 1, true))
    ∧ (envNoTarget.resp 0 = "YES"
      ∧ bring_down_network_linux baseCfg envNoTarget 0 = ([], 0, false)) := by
  exact ⟨⟨⟨rfl, by decide⟩, by decide⟩, ⟨rfl, by decide⟩⟩

/-- Claim C9 (amended): on the Linux path with requireConfirm true, a
disabling command in the loop-body trace requires both the monitor consent
line and the kill-switch consent line to strip to YES (two separate
prompts), and a refusal at either prompt keeps every OS command out of the
trace. -/
theorem c9_two_stripped_consents (cfg : Config) (env : Env) (t : Int) (k pIdx : Nat)
    (st : Option Bool) (hconf : cfg.requireConfirm = true) :
    (∀ c, Ev.cmd c ∈ (loopIter cfg env t k pIdx st).1 →
      pyStrip (env.resp pIdx) = "YES" ∧ pyStrip (env.resp (pIdx + 1)) = "YES")
    ∧ ((pyStrip (env.resp pIdx) ≠ "YES" ∨ pyStrip (env.resp (pIdx + 1)) ≠ "YES") →
        ∀ c, Ev.cmd c ∉ (loopIter cfg env t k pIdx st).1) := by
  have main : ∀ c, Ev.cmd c ∈ (loopIter cfg env t k pIdx st).1 →
      pyStrip (env.resp pIdx) = "YES" ∧ pyStrip (env.resp (pIdx + 1)) = "YES" := by
    intro c hc
    unfold loopIter at hc
    cases h0 : probeOnce cfg env k with
    | true => simp [h0] at hc
    | false =>
      simp only [h0, Bool.false_eq_true, if_false] at hc
      rcases hres : retryLoop cfg env cfg.retries.toNat t (k + 1) with ⟨tr, res⟩
      rw [hres] at hc
      have htr : Ev.cmd c ∉ tr := by
        intro hx
        have hmem := mem_retryLoop_trace cfg env cfg.retries.toNat t (k + 1)
          (Ev.cmd c) (by rw [hres]; exact hx)
        rcases hmem with ⟨g, hg⟩ | ⟨b, hb⟩
        · exact Ev.noConfusion hg
        · exact Ev.noConfusion hb
      cases res with
      | stopped t2 k2 =>
        simp only [List.mem_cons] at hc
        rcases hc with h | h
        · exact Ev.noConfusion h
        · exact absurd h htr
      | recovered t2 k2 =>
        simp only [List.mem_cons, List.mem_append, List.mem_singleton] at hc
        rcases hc with h | h | h | h
        · exact Ev.noConfusion h
        · exact absurd h htr
        · exact Ev.noConfusion h
        · exact absurd h (List.not_mem_nil _)
      | exhausted t2 k2 =>
        cases hw : show_fullscreen_warning cfg env with
        | error e =>
          rw [hw] at hc
          simp only [List.mem_cons, List.mem_append, List.mem_singleton] at hc
          rcases hc with h | h | h | h
          · exact Ev.noConfusion h
          · exact absurd h htr
          · exact Ev.noConfusion h
          · exact absurd h (List.not_mem_nil _)
        | ok u =>
          rw [hw] at hc
          simp only [List.mem_cons, List.mem_append] at hc
          rcases hc with h | h | h | h
          · exact Ev.noConfusion h
          · exact absurd h htr
          · exact Ev.noConfusion h
          · exact cmd_mem_afterWarn cfg env t2 k2 pIdx st c hconf h
  refine ⟨main, ?_⟩
  intro href c hc
  rcases main c hc with ⟨h1, h2⟩
  rcases href with h | h
  · exact h h1
  · exact h h2

/-- Witness for C9: with both prompts answered by the exact token YES the
command is issued, and the theorem recovers both stripped consents. -/
theorem c9_witness :
    pyStrip (envYes.resp 0) = "YES" ∧ pyStrip (envYes.resp 1) = "YES" :=
  (c9_two_stripped_consents baseCfg envYes 0 0 0 none (by decide)).1
    Cmd.nmcliNetworkingOff (by decide)

/-- Counterexample for C9 as stated: the two consent lines are YES with
stray whitespace, neither the exact token, yet both gates pass and the
disabling command is issued before the loop exits. -/
theorem c9_counterexample :
    envYesPadBoth.resp 0 ≠ "YES" ∧ envYesPadBoth.resp 1 ≠ "YES"
    ∧ Ev.cmd Cmd.nmcliNetworkingOff ∈ (loopIter baseCfg envYesPadBoth 0 0 0 none).1
    ∧ (loopIter baseCfg envYesPadBoth 0 0 0 none).2 = StepRes.exited := by
  exact ⟨by decide, by decide, by decide, by decide⟩

/- Specific non-membership facts about the repeated grace block. -/
lemma warn_not_mem_flatten_block (n : Nat) (g : Int) :
    Ev.warn ∉ List.flatten (List.replicate n [Ev.sleep g, Ev.probe false]) := by
  intro h
  rcases mem_flatten_replicate_block h with h | h <;> exact Ev.noConfusion h

lemma prompt_not_mem_flatten_block (r : String) (n : Nat) (g : Int) :
    Ev.prompt r ∉ List.flatten (List.replicate n [Ev.sleep g, Ev.probe false]) := by
  intro h
  rcases mem_flatten_replicate_block h with h | h <;> exact Ev.noConfusion h

lemma stateSet_not_mem_flatten_block (b : Bool) (n : Nat) (g : Int) :
    Ev.stateSet b ∉ List.flatten (List.replicate n [Ev.sleep g, Ev.probe false]) := by
  intro h
  rcases mem_flatten_replicate_block h with h | h <;> exact Ev.noConfusion h

lemma cmd_not_mem_flatten_block (c : Cmd) (n : Nat) (g : Int) :
    Ev.cmd c ∉ List.flatten (List.replicate n [Ev.sleep g, Ev.probe false]) := by
  intro h
  rcases mem_flatten_replicate_block h with h | h <;> exact Ev.noConfusion h

/- One unfolding step of the bounded while loop when the body continues. -/
lemma monRun_succ_go (cfg : Config) (env : Env) (fuel : Nat) (t : Int) (k pIdx : Nat)
    (st : Option Bool) (tr : List Ev) (t2 : Int) (k2 p2 : Nat) (st2 : Option Bool)
    (hs : stopSet env t = false)
    (hstep : loopIter cfg env t k pIdx st = (tr, StepRes.go t2 k2 p2 st2)) :
    monRun cfg env (fuel + 1) t k pIdx st
      = (tr ++ (monRun cfg env fuel t2 k2 p2 st2).1,
         (monRun cfg env fuel t2 k2 p2 st2).2) := by
  simp only [monRun, hs, Bool.false_eq_true, if_false, hstep]

/-- Claim C1: after an initial probe failure the monitor performs up to R
re-probes, each preceded by a graceSeconds sleep; the warning is reached
exactly once, before any consent prompt, exactly when all R re-probes fail;
and if some re-probe succeeds the body publishes Healthy again with no
warning and no prompt ever shown. -/
theorem c1_grace_retry_alerting (cfg : Config) (env : Env) (t : Int) (k pIdx : Nat)
    (st : Option Bool) (R : Nat) (hR : cfg.retries.toNat = R)
    (hstop : env.stopAt = none)
    (h0 : probeOnce cfg env k = false)
    (hw : show_fullscreen_warning cfg env = Except.ok ()) :
    ((∀ i, i < R → probeOnce cfg env (k + 1 + i) = false) →
      ∃ post res,
        loopIter cfg env t k pIdx st =
          (Ev.probe false ::
            (List.flatten (List.replicate R [Ev.sleep cfg.graceSeconds, Ev.probe false])
              ++ Ev.warn :: Ev.prompt (env.resp pIdx) :: post), res)
        ∧ Ev.warn ∉ post
        ∧ (loopIter cfg env t k pIdx st).1.count Ev.warn = 1)
    ∧ ((∃ i, i < R ∧ probeOnce cfg env (k + 1 + i) = true) →
        ∃ tr t2 k2,
          loopIter cfg env t k pIdx st = (tr, StepRes.go t2 k2 pIdx (some true))
          ∧ Ev.warn ∉ tr ∧ ∀ r, Ev.prompt r ∉ tr) := by
  subst hR
  constructor
  · intro hf
    have hiter := loopIter_confirmedOutage cfg env t k pIdx st hstop h0 hf hw
    have hs2 : stopSet env (t + cfg.retries.toNat * cfg.graceSeconds) = false :=
      stopSet_none hstop _
    obtain ⟨post, hpost, hnw⟩ :=
      afterWarn_shape cfg env (t + cfg.retries.toNat * cfg.graceSeconds)
        (k + 1 + cfg.retries.toNat) pIdx st hs2
    rw [hpost] at hiter
    refine ⟨post, _, hiter, hnw, ?_⟩
    rw [hiter]
    have h1 : (List.flatten (List.replicate cfg.retries.toNat
        [Ev.sleep cfg.graceSeconds, Ev.probe false])).count Ev.warn = 0 :=
      List.count_eq_zero.mpr (warn_not_mem_flatten_block _ _)
    have h2 : post.count Ev.warn = 0 := List.count_eq_zero.mpr hnw
    simp [List.count_cons, List.count_append, h1, h2]
  · rintro ⟨i, hiR, hit⟩
    have hex : ∃ j, probeOnce cfg env (k + 1 + j) = true := ⟨i, hit⟩
    have hj : probeOnce cfg env (k + 1 + Nat.find hex) = true := Nat.find_spec hex
    have hjlt : Nat.find hex < cfg.retries.toNat :=
      lt_of_le_of_lt (Nat.find_min' hex hit) hiR
    have hmin : ∀ m, m < Nat.find hex → probeOnce cfg env (k + 1 + m) = false := by
      intro m hm
      have hnm := Nat.find_min hex hm
      cases hpm : probeOnce cfg env (k + 1 + m) with
      | false => rfl
      | true => exact absurd hpm hnm
    have hr := retryLoop_recover cfg env hstop (Nat.find hex) cfg.retries.toNat t (k + 1)
      hjlt hj hmin
    refine ⟨Ev.probe false ::
        ((List.flatten (List.replicate (Nat.find hex)
            [Ev.sleep cfg.graceSeconds, Ev.probe false])
          ++ [Ev.sleep cfg.graceSeconds, Ev.probe true]) ++ [Ev.stateSet true]),
      t + (Nat.find hex + 1) * cfg.graceSeconds, k + 1 + Nat.find hex + 1, ?_, ?_, ?_⟩
    · simp only [loopIter, h0, Bool.false_eq_true, if_false, hr]
    · simp [List.mem_cons, List.mem_append, warn_not_mem_flatten_block]
    · intro r
      simp [List.mem_cons, List.mem_append, prompt_not_mem_flatten_block r]

/-- Witness for C1: proxy down throughout with one retry; the warning
appears exactly once in the body trace. -/
theorem c1_witness : (loopIter baseCfg baseEnv 0 0 0 none).1.count Ev.warn = 1 := by
  obtain ⟨post, res, heq, hnw, hcount⟩ :=
    (c1_grace_retry_alerting baseCfg baseEnv 0 0 0 none 1 (by decide) rfl (by decide)
      rfl).1 (by decide)
  exact hcount

/-
Branch computations of the consent phase, for a generic resume time t2
and probe counter k2: the refusal branch, the consent-without-root
branch, and the consent-as-root branch.
-/
lemma afterWarn_refuse (cfg : Config) (env : Env) (t2 : Int) (k2 pIdx : Nat)
    (st : Option Bool) (hs : stopSet env t2 = false)
    (hy : pyStrip (env.resp pIdx) ≠ "YES") :
    afterWarn cfg env t2 k2 pIdx st
      = ([Ev.prompt (env.resp pIdx), Ev.stateSet false, Ev.sleep cfg.checkInterval],
         StepRes.go (t2 + cfg.checkInterval) k2 (pIdx + 1) (some false)) := by
  simp [afterWarn, hs, hy]

lemma afterWarn_yes_notRoot (cfg : Config) (env : Env) (t2 : Int) (k2 pIdx : Nat)
    (st : Option Bool) (hs : stopSet env t2 = false)
    (hy : pyStrip (env.resp pIdx) = "YES") (hroot : env.isRoot = false) :
    afterWarn cfg env t2 k2 pIdx st
      = ([Ev.prompt (env.resp pIdx)], StepRes.go t2 k2 (pIdx + 1) st) := by
  simp [afterWarn, hs, hy, hroot]

lemma afterWarn_yes_root (cfg : Config) (env : Env) (t2 : Int) (k2 pIdx : Nat)
    (st : Option Bool) (hs : stopSet env t2 = false)
    (hy : pyStrip (env.resp pIdx) = "YES") (hroot : env.isRoot = true) :
    afterWarn cfg env t2 k2 pIdx st
      = (Ev.prompt (env.resp pIdx) :: (bring_down_network_linux cfg env (pIdx + 1)).1,
         if (bring_down_network_linux cfg env (pIdx + 1)).2.2 then StepRes.exited
         else StepRes.go t2 k2 (pIdx + 1 + (bring_down_network_linux cfg env (pIdx + 1)).2.1)
           st) := by
  simp [afterWarn, hs, hy, hroot]

/-- Claim C5 (amended): even with requireConfirm false the monitor itself
solicits a consent line after the warning; a line stripping to YES from a
root operator invokes the kill-switch, which then proceeds without any
second prompt of its own; any other line skips the kill-switch, writes
Down and sleeps checkInterval. -/
theorem c5_monitor_prompt_required (cfg : Config) (env : Env) (t : Int) (k pIdx : Nat)
    (st : Option Bool)
    (hconf : cfg.requireConfirm = false)
    (hstop : env.stopAt = none)
    (h0 : probeOnce cfg env k = false)
    (hf : ∀ i, i < cfg.retries.toNat → probeOnce cfg env (k + 1 + i) = false)
    (hw : show_fullscreen_warning cfg env = Except.ok ()) :
    (pyStrip (env.resp pIdx) = "YES" → env.isRoot = true →
      (loopIter cfg env t k pIdx st).1
        = Ev.probe false ::
            (List.flatten (List.replicate cfg.retries.toNat
                [Ev.sleep cfg.graceSeconds, Ev.probe false])
              ++ Ev.warn :: Ev.prompt (env.resp pIdx)
                :: (bring_down_network_linux cfg env (pIdx + 1)).1)
      ∧ (∀ r, Ev.prompt r ∉ (bring_down_network_linux cfg env (pIdx + 1)).1))
    ∧ (pyStrip (env.resp pIdx) ≠ "YES" →
        (∀ c, Ev.cmd c ∉ (loopIter cfg env t k pIdx st).1)
        ∧ (loopIter cfg env t k pIdx st).2
            = StepRes.go (t + cfg.retries.toNat * cfg.graceSeconds + cfg.checkInterval)
                (k + 1 + cfg.retries.toNat) (pIdx + 1) (some false)) := by
  have hiter := loopIter_confirmedOutage cfg env t k pIdx st hstop h0 hf hw
  have hs2 : stopSet env (t + cfg.retries.toNat * cfg.graceSeconds) = false :=
    stopSet_none hstop _
  constructor
  · intro hy hroot
    have haw := afterWarn_yes_root cfg env (t + cfg.retries.toNat * cfg.graceSeconds)
      (k + 1 + cfg.retries.toNat) pIdx st hs2 hy hroot
    rw [haw] at hiter
    constructor
    · rw [hiter]
    · intro r
      exact prompt_not_mem_bdn_noconfirm cfg env (pIdx + 1) r hconf
  · intro hy
    have haw := afterWarn_refuse cfg env (t + cfg.retries.toNat * cfg.graceSeconds)
      (k + 1 + cfg.retries.toNat) pIdx st hs2 hy
    rw [haw] at hiter
    constructor
    · intro c
      rw [hiter]
      simp [List.mem_cons, List.mem_append, cmd_not_mem_flatten_block c]
    · rw [hiter]

/-- Witness for C5: with requireConfirm false and a YES consent line from a
root operator the body trace is the outage prefix followed by the
kill-switch events, with no second prompt inside them. -/
theorem c5_witness :
    (loopIter cfgNoConfirm envYes 0 0 0 none).1
      = Ev.probe false ::
          (List.flatten (List.replicate cfgNoConfirm.retries.toNat
              [Ev.sleep cfgNoConfirm.graceSeconds, Ev.probe false])
            ++ Ev.warn :: Ev.prompt (envYes.resp 0)
              :: (bring_down_network_linux cfgNoConfirm envYes 1).1) :=
  ((c5_monitor_prompt_required cfgNoConfirm envYes 0 0 0 none (by decide) rfl (by decide)
      (by decide) rfl).1 (by decide) (by decide)).1

/-- Counterexample for C5 as stated: requireConfirm is false, the warning
was shown and acknowledged, yet the monitor still demands its own YES: an
empty consent line leaves every kill-switch command unissued and the body
continues with state Down. -/
theorem c5_counterexample :
    cfgNoConfirm.requireConfirm = false
    ∧ (loopIter cfgNoConfirm baseEnv 0 0 0 none).1
        = [Ev.probe false, Ev.sleep 1, Ev.probe false, Ev.warn, Ev.prompt "",
           Ev.stateSet false, Ev.sleep 3]
    ∧ Ev.cmd Cmd.nmcliNetworkingOff ∉ (loopIter cfgNoConfirm baseEnv 0 0 0 none).1
    ∧ (loopIter cfgNoConfirm baseEnv 0 0 0 none).2 = StepRes.go 4 2 1 (some false) := by
  exact ⟨rfl, by decide, by decide, by decide⟩

/-- Claim C6 evaluation at the failing input: graceSeconds 8, stop requested
one second into the first grace delay.  The body still emits the full
8 second sleep event before observing the stop flag, then returns Stopped
without reaching the warning: the grace delay is a plain time.sleep and is
not aborted within a bounded slice, though the Stopped-not-ConfirmedOutage
half of the claim does hold. -/
theorem c6_grace_sleep_not_interruptible :
    envStop1.stopAt = some 1
    ∧ cfgC6.graceSeconds = 8
    ∧ loopIter cfgC6 envStop1 0 0 0 none
        = ([Ev.probe false, Ev.sleep 8], StepRes.stopped) := by
  exact ⟨rfl, rfl, by decide⟩

/-- Claim C7 (amended): when a consented disable attempt fails (the
operator is not root, or bring_down_network returns failure), the monitor
continues the loop immediately: the body result is a continuation carrying
the same exposed health value, no health write occurs anywhere in the body
trace, no checkInterval sleep is inserted (elapsed sleep stays at retries
times graceSeconds), and the bounded run proceeds with its remaining fuel;
only an operator refusal writes Down and sleeps checkInterval. -/
theorem c7_failed_disable_continues (cfg : Config) (env : Env) (t : Int) (k pIdx : Nat)
    (st : Option Bool)
    (hstop : env.stopAt = none)
    (h0 : probeOnce cfg env k = false)
    (hf : ∀ i, i < cfg.retries.toNat → probeOnce cfg env (k + 1 + i) = false)
    (hw : show_fullscreen_warning cfg env = Except.ok ())
    (hyes : pyStrip (env.resp pIdx) = "YES")
    (hfail : env.isRoot = false ∨ (bring_down_network_linux cfg env (pIdx + 1)).2.2 = false) :
    ∃ pIdx2,
      (loopIter cfg env t k pIdx st).2
        = StepRes.go (t + cfg.retries.toNat * cfg.graceSeconds)
            (k + 1 + cfg.retries.toNat) pIdx2 st
      ∧ Ev.stateSet false ∉ (loopIter cfg env t k pIdx st).1
      ∧ Ev.stateSet true ∉ (loopIter cfg env t k pIdx st).1
      ∧ ∀ fuel, monRun cfg env (fuel + 1) t k pIdx st
          = ((loopIter cfg env t k pIdx st).1
              ++ (monRun cfg env fuel (t + cfg.retries.toNat * cfg.graceSeconds)
                  (k + 1 + cfg.retries.toNat) pIdx2 st).1,
             (monRun cfg env fuel (t + cfg.retries.toNat * cfg.graceSeconds)
                (k + 1 + cfg.retries.toNat) pIdx2 st).2) := by
  have hiter := loopIter_confirmedOutage cfg env t k pIdx st hstop h0 hf hw
  have hs2 : stopSet env (t + cfg.retries.toNat * cfg.graceSeconds) = false :=
    stopSet_none hstop _
  by_cases hroot : env.isRoot = true
  · have hsucc : (bring_down_network_linux cfg env (pIdx + 1)).2.2 = false := by
      rcases hfail with h | h
      · rw [hroot] at h
        exact absurd h (by simp)
      · exact h
    have haw := afterWarn_yes_root cfg env (t + cfg.retries.toNat * cfg.graceSeconds)
      (k + 1 + cfg.retries.toNat) pIdx st hs2 hyes hroot
    rw [hsucc, if_neg (by simp)] at haw
    rw [haw] at hiter
    refine ⟨pIdx + 1 + (bring_down_network_linux cfg env (pIdx + 1)).2.1, ?_, ?_, ?_, ?_⟩
    · rw [hiter]
    · rw [hiter]
      simp [List.mem_cons, List.mem_append, stateSet_not_mem_flatten_block false,
        stateSet_not_mem_bdn cfg env (pIdx + 1) false]
    · rw [hiter]
      simp [List.mem_cons, List.mem_append, stateSet_not_mem_flatten_block true,
        stateSet_not_mem_bdn cfg env (pIdx + 1) true]
    · intro fuel
      have hpair : loopIter cfg env t k pIdx st
          = ((loopIter cfg env t k pIdx st).1,
             StepRes.go (t + cfg.retries.toNat * cfg.graceSeconds)
               (k + 1 + cfg.retries.toNat)
               (pIdx + 1 + (bring_down_network_linux cfg env (pIdx + 1)).2.1) st) := by
        rw [hiter]
      exact monRun_succ_go cfg env fuel t k pIdx st _ _ _ _ _ (stopSet_none hstop t) hpair
  · have hroot2 : env.isRoot = false := by
      cases h : env.isRoot with
      | false => rfl
      | true => exact absurd h hroot
    have haw := afterWarn_yes_notRoot cfg env (t + cfg.retries.toNat * cfg.graceSeconds)
      (k + 1 + cfg.retries.toNat) pIdx st hs2 hyes hroot2
    rw [haw] at hiter
    refine ⟨pIdx + 1, ?_, ?_, ?_, ?_⟩
    · rw [hiter]
    · rw [hiter]
      simp [List.mem_cons, List.mem_append, stateSet_not_mem_flatten_block false]
    · rw [hiter]
      simp [List.mem_cons, List.mem_append, stateSet_not_mem_flatten_block true]
    · intro fuel
      have hpair : loopIter cfg env t k pIdx st
          = ((loopIter cfg env t k pIdx st).1,
             StepRes.go (t + cfg.retries.toNat * cfg.graceSeconds)
               (k + 1 + cfg.retries.toNat) (pIdx + 1) st) := by
        rw [hiter]
      exact monRun_succ_go cfg env fuel t k pIdx st _ _ _ _ _ (stopSet_none hstop t) hpair

/-- Witness for C7: consent given, root, nmcli exits nonzero; the body never
writes the health state. -/
theorem c7_witness :
    Ev.stateSet false ∉ (loopIter cfgNoConfirm envNmFail 0 0 0 (some true)).1 := by
  obtain ⟨p2, h1, h2, h3, h4⟩ :=
    c7_failed_disable_continues cfgNoConfirm envNmFail 0 0 0 (some true) rfl (by decide)
      (by decide) rfl (by decide) (Or.inr (by decide))
  exact h2

/-- Counterexample for C7 as stated: a consented disable attempt fails (rc
1 from nmcli), yet the body neither writes health Down nor sleeps
checkInterval: the exposed state stays True and the continuation resumes at
the elapsed grace time with an immediate re-probe. -/
theorem c7_counterexample :
    loopIter cfgNoConfirm envNmFail 0 0 0 (some true)
      = ([Ev.probe false, Ev.sleep 1, Ev.probe false, Ev.warn, Ev.prompt "YES",
          Ev.cmd Cmd.nmcliNetworkingOff],
         StepRes.go 1 2 1 (some true)) := by
  decide

/-- Claim C8 evaluation at the failing input: tkinter is not importable,
USE_TK is set and no image overlay is configured.  The handler clause
except (ImportError, tk.TclError) dereferences the unbound name tk, so the
presenter raises NameError instead of falling back to the text prompt, and
the error propagates into the monitor loop and kills the body. -/
theorem c8_warning_nameerror :
    show_fullscreen_warning cfgTk envNoTkImport = Except.error PyExc.nameError
    ∧ loopIter cfgTk envNoTkImport 0 0 0 none
        = ([Ev.probe false, Ev.sleep 1, Ev.probe false, Ev.warn],
           StepRes.crashed PyExc.nameError) := by
  exact ⟨rfl, by decide⟩
